import Mathlib

set_option maxRecDepth 100000

/-!
Shallow embedding of the PitchSpark scoring core (src/app.py):
the weak-phrase matcher `get_spacy_suggestions` (lines 57-81) and the
scorer `calculate_score` (lines 104-118).

The matcher delegates tokenization and pattern matching to the spaCy
library (`nlp(text)` with model en_core_web_sm, and `spacy.matcher.Matcher`).
spaCy is an external dependency, so its behaviour on the ASCII prose
exercised here is embedded explicitly:
  - the tokenizer splits on whitespace and splits trailing sentence
    punctuation (".", ",", "!", "?", ";", ":") off a word into its own
    tokens;
  - the lemmatizer maps a closed-class function word such as "with" to its
    lowercase base form (only the pattern predicate LEMMA "with" is ever
    consulted by the patterns of the source);
  - `Matcher.__call__` returns every `(match_id, start, end)` occurrence of
    every added pattern, in document order (by start token position);
    overlapping occurrences are all reported.
Python string primitives used by the source (`str.lower`, `in` as substring
test, `str.startswith`, `len`) are embedded as executable functions on
`List Char` / `String` below.
-/

/-- A one-character string holding the ASCII apostrophe (code 39), used by
the suggestion templates of the source. -/
def apos : String := String.mk [Char.ofNat 39]

/-- Lowercasing of a string, character by character: embeds Python
`str.lower` on the ASCII texts in scope. -/
def lowerStr (s : String) : String := String.mk (s.data.map Char.toLower)

/-- Whether `p` is an initial segment of `l` (character lists). -/
def chrPre : List Char → List Char → Bool
  | [], _ => true
  | _ :: _, [] => false
  | a :: as, b :: bs => a == b && chrPre as bs

/-- Embeds the Python membership test `needle in hay` on strings:
`needle` occurs as a contiguous substring of `hay`. -/
def strContains (hay needle : String) : Bool :=
  (List.range (hay.data.length + 1)).any (fun i => chrPre needle.data (hay.data.drop i))

/-- Embeds Python `s.startswith(p)`. -/
def strStartsWith (s p : String) : Bool := chrPre p.data s.data

/-- Whitespace characters recognized by the embedded tokenizer. -/
def isSpaceC (c : Char) : Bool := c == ' ' || c == '\n' || c == '\t'

/-- Trailing sentence punctuation that spaCy splits into its own token. -/
def isPunctC (c : Char) : Bool :=
  c == '.' || c == ',' || c == '!' || c == '?' || c == ';' || c == ':'

/-- Splits a character stream on whitespace, accumulating the current chunk
in reverse in `acc`. -/
def wordsAux : List Char → List Char → List (List Char)
  | [], acc => if acc.isEmpty then [] else [acc.reverse]
  | c :: cs, acc =>
    if isSpaceC c then
      if acc.isEmpty then wordsAux cs [] else acc.reverse :: wordsAux cs []
    else wordsAux cs (c :: acc)

/-- Splits the trailing punctuation of a whitespace-delimited chunk into
separate one-character tokens, as the spaCy tokenizer does (e.g. the chunk
"sales." becomes the tokens "sales" and "."). -/
def splitChunk (w : List Char) : List String :=
  let r := w.reverse
  let punct := r.takeWhile isPunctC
  let core := (r.dropWhile isPunctC).reverse
  (if core.isEmpty then [] else [String.mk core]) ++ punct.reverse.map (fun c => String.mk [c])

/-- Models `nlp(text)` of the source (line 59) as the token sequence of the
document: whitespace splitting with trailing punctuation split off. -/
def tokenize (text : String) : List String :=
  (wordsAux text.data []).flatMap splitChunk

/-- A token-matching predicate of a spaCy Matcher pattern: `lowerEq s`
embeds a LOWER attribute entry and `lemmaEq s` a LEMMA attribute entry. -/
inductive TokPred where
  | lowerEq : String → TokPred
  | lemmaEq : String → TokPred
deriving DecidableEq

/-- Models the spaCy lemmatizer as far as the patterns of the source consult it:
the only LEMMA predicate used is LEMMA "with", and every surface form of
the closed-class word "with" lemmatizes to its lowercase form "with". -/
def spacyLemma (t : String) : String := lowerStr t

/-- Whether a token satisfies one pattern predicate. -/
def tokMatches (p : TokPred) (t : String) : Bool :=
  match p with
  | TokPred.lowerEq s => lowerStr t == s
  | TokPred.lemmaEq s => spacyLemma t == s

/-- The fixed pattern catalog of the source (lines 61-66), in definition
order. -/
def patterns : List (List TokPred) :=
  [ [TokPred.lowerEq ("i"), TokPred.lowerEq ("think")],
    [TokPred.lowerEq ("i"), TokPred.lowerEq ("believe")],
    [TokPred.lowerEq ("helped"), TokPred.lemmaEq ("with")],
    [TokPred.lowerEq ("responsible"), TokPred.lowerEq ("for")] ]

/-- Whether the consecutive tokens at the head of `ts` satisfy the
predicates of `p` in order. -/
def matchFrom : List TokPred → List String → Bool
  | [], _ => true
  | _ :: _, [] => false
  | p :: ps, t :: ts => tokMatches p t && matchFrom ps ts

/-- All pattern occurrences starting at token position `i`, as
`(start, end)` pairs, in catalog order. -/
def matchesAtPos (doc : List String) (i : Nat) : List (Nat × Nat) :=
  patterns.filterMap (fun p =>
    if matchFrom p (doc.drop i) then some (i, i + p.length) else none)

/-- Models `matcher(doc)` (line 68): every occurrence of every pattern, in
document order by start position. -/
def matcherMatches (doc : List String) : List (Nat × Nat) :=
  (List.range doc.length).flatMap (matchesAtPos doc)

/-- Joins tokens with single spaces, reconstructing `span.text` for spans
of space-separated word tokens. -/
def joinSpace : List String → String
  | [] => ""
  | [s] => s
  | s :: rest => s ++ " " ++ joinSpace rest

/-- Models `doc[start:end].text` (line 71). -/
def spanText (doc : List String) (i j : Nat) : String :=
  joinSpace ((doc.drop i).take (j - i))

/-- The f-string template shared by the three suggestion branches: the word
Found, the matched span quoted in apostrophes, then the advice tail. -/
def mkSuggestion (span tail : String) : String :=
  "Found: " ++ apos ++ span ++ apos ++ ". " ++ tail

/-- Advice tail of the "i think" / "i believe" branch (line 74). -/
def adviceConfident : String := "Try a more confident phrase."

/-- Advice tail of the "helped ..." branch (line 76). -/
def adviceActionVerb : String :=
  "Try a stronger action verb like " ++ apos ++ "Assisted" ++ apos ++ ", "
    ++ apos ++ "Supported" ++ apos ++ ", or " ++ apos ++ "Contributed to" ++ apos ++ "."

/-- Advice tail of the "responsible for" branch (line 78). -/
def adviceStrongVerbs : String :=
  "Try using strong action verbs like " ++ apos ++ "Managed" ++ apos ++ ", "
    ++ apos ++ "Owned" ++ apos ++ ", or " ++ apos ++ "Led" ++ apos ++ "."

/-- The suggestion string built for a matched span (lines 72-78); the empty
string embeds the Python variable `suggestion` staying `""` when no branch
applies. -/
def suggestionFor (span : String) : String :=
  if lowerStr span == "i think" || lowerStr span == "i believe" then
    mkSuggestion span adviceConfident
  else if strStartsWith (lowerStr span) ("helped") then
    mkSuggestion span adviceActionVerb
  else if lowerStr span == "responsible for" then
    mkSuggestion span adviceStrongVerbs
  else ""

/-- One iteration of the accumulation loop (lines 79-80):
`if suggestion and suggestion not in suggestions: suggestions.append(suggestion)`. -/
def dedupAppend (suggestions : List String) (s : String) : List String :=
  if s ≠ "" ∧ s ∉ suggestions then suggestions ++ [s] else suggestions

/-- The body of `get_spacy_suggestions` after `doc = nlp(text)`: the match
loop over `matcher(doc)` (lines 60-81). -/
def suggestionsOfDoc (doc : List String) : List String :=
  (matcherMatches doc).foldl
    (fun suggestions m => dedupAppend suggestions (suggestionFor (spanText doc m.1 m.2))) []

/-- Embeds `get_spacy_suggestions(text)` (lines 57-81). -/
def get_spacy_suggestions (text : String) : List String :=
  suggestionsOfDoc (tokenize text)

/-- The failure a tokenizer/encoding error in `nlp(text)` would raise. -/
inductive SpacyErr where
  | tokenizerFailure : SpacyErr
deriving DecidableEq

/-- Embeds `get_spacy_suggestions` with the outcome of the `nlp(text)` call
made explicit. The source body (lines 58-81) contains no try/except, so the
embedding uses the result of `nlp` directly: an error is propagated to the
caller unchanged, never handled locally. -/
def get_spacy_suggestionsE (nlpResult : Except SpacyErr (List String)) :
    Except SpacyErr (List String) :=
  match nlpResult with
  | Except.error e => Except.error e
  | Except.ok doc => Except.ok (suggestionsOfDoc doc)

/-- The keyword condition of line 114:
`"data" in text.lower() or "software" in text.lower() or "python" in text.lower()`. -/
def keywordHit (text : String) : Bool :=
  strContains (lowerStr text) ("data") || strContains (lowerStr text) ("software")
    || strContains (lowerStr text) ("python")

/-- The score before the final clamp: lines 106-115 of `calculate_score`
(base 50, minus 15 per suggestion, length band, single keyword bonus). -/
def raw_score (spacy_suggestions : List String) (text : String) : Int :=
  let score : Int := 50
  let score := score - (spacy_suggestions.length : Int) * 15
  let score :=
    if text.length < 150 then score - 20
    else if text.length > 500 then score + 20
    else score
  if keywordHit text then score + 10 else score

/-- Embeds `calculate_score(spacy_suggestions, text)` (lines 104-118):
the raw score of lines 106-115 clamped by `max(0, min(100, score))`. -/
def calculate_score (spacy_suggestions : List String) (text : String) : Int :=
  max 0 (min 100 (raw_score spacy_suggestions text))

/-- Follows the words of the spec (section 4.2 step 3 and section 8 boundary
property): the length adjustment is -20 exactly when length < 150, +20
exactly when length > 500, and 0 on the inclusive band [150, 500]. Stated
separately from the source-derived `raw_score` so the two can be compared. -/
def spec_length_adjustment (n : Nat) : Int :=
  if n < 150 then -20 else if n > 500 then 20 else 0

/-- First-occurrence-wins deduplication of a suggestion stream, dropping
empty strings, relative to an already-seen list: the specification-level
description of the loop of lines 79-80. -/
def filteredKeepFirst (seen : List String) : List String → List String
  | [] => []
  | s :: rest =>
    if s ≠ "" ∧ s ∉ seen then s :: filteredKeepFirst (seen ++ [s]) rest
    else filteredKeepFirst seen rest

/-- The 600-character example text: contains the keywords "data" and
"software", no weak phrases. -/
def c1text : String := "data software " ++ String.mk (List.replicate 586 'x')

/-- The end-to-end example sentence of the spec (section 8). -/
def c2text : String := "I think I helped with the project and I was responsible for sales."

/-- A text whose weak phrases occur in the reverse of catalog order. -/
def c5text : String := "Responsible for sales and I think"

/-! Helper lemmas shared by several claims. -/

/-- The clamp of line 118 never goes below 0. -/
lemma clamp_nonneg (x : Int) : 0 ≤ max 0 (min 100 x) := le_max_left 0 _

/-- The clamp of line 118 never exceeds 100. -/
lemma clamp_le_100 (x : Int) : max 0 (min 100 x) ≤ 100 :=
  max_le (by norm_num) (min_le_left 100 x)

/-- The clamp of line 118 preserves divisibility by 5. -/
lemma clamp_dvd (x : Int) (h : (5 : Int) ∣ x) : (5 : Int) ∣ max 0 (min 100 x) := by
  rcases max_choice 0 (min 100 x) with h1 | h1 <;> rw [h1]
  · exact dvd_zero 5
  · rcases min_choice 100 x with h2 | h2 <;> rw [h2]
    · norm_num
    · exact h

/-- The raw score decomposes into base, suggestion penalty, length
adjustment as described by the spec, and a flat keyword bonus. -/
lemma raw_score_eq (s : List String) (t : String) :
    raw_score s t =
      50 - 15 * (s.length : Int) + spec_length_adjustment t.length
        + (if keywordHit t then 10 else 0) := by
  simp only [raw_score, spec_length_adjustment]
  split_ifs <;> ring

/-- The raw score is always a multiple of 5. -/
lemma raw_score_dvd (s : List String) (t : String) : (5 : Int) ∣ raw_score s t := by
  simp only [raw_score]
  split_ifs <;> omega

/-- The accumulation loop of lines 79-80 computes first-occurrence-wins
deduplication of the nonempty suggestions, relative to the accumulator. -/
lemma foldl_dedupAppend_eq (l acc : List String) :
    List.foldl dedupAppend acc l = acc ++ filteredKeepFirst acc l := by
  induction l generalizing acc with
  | nil => simp [filteredKeepFirst]
  | cons s rest ih =>
    simp only [List.foldl_cons, dedupAppend, filteredKeepFirst]
    split_ifs with h
    · rw [ih]
      simp
    · exact ih acc

/-- The accumulation loop of lines 79-80 preserves the no-duplicates
invariant of the accumulator. -/
lemma foldl_dedupAppend_nodup (l acc : List String) (h : acc.Nodup) :
    (List.foldl dedupAppend acc l).Nodup := by
  induction l generalizing acc with
  | nil => simpa using h
  | cons s rest ih =>
    rw [List.foldl_cons]
    apply ih
    by_cases hc : s ≠ "" ∧ s ∉ acc
    · simp only [dedupAppend, if_pos hc]
      simp [List.nodup_append, h, hc.2]
    · simp only [dedupAppend, if_neg hc]
      exact h

/-- The match loop is the fold of `dedupAppend` over the suggestion strings
of the matches, taken in the order the matcher reports them. -/
lemma suggestionsOfDoc_eq (doc : List String) :
    suggestionsOfDoc doc =
      List.foldl dedupAppend []
        ((matcherMatches doc).map (fun m => suggestionFor (spanText doc m.1 m.2))) := by
  simp only [suggestionsOfDoc]
  rw [List.foldl_map]

/-! Claim theorems. -/

/-- C1 counterexample: the 600-character text containing both "data" and
"software" with no weak phrases scores 80, not the claimed 90, because the
keyword bonus of line 114 is a single +10 for the whole or-chain. -/
theorem C1_counterexample :
    c1text.length = 600
      ∧ strContains (lowerStr c1text) ("data") = true
      ∧ strContains (lowerStr c1text) ("software") = true
      ∧ get_spacy_suggestions c1text = []
      ∧ calculate_score (get_spacy_suggestions c1text) c1text = 80
      ∧ calculate_score (get_spacy_suggestions c1text) c1text ≠ 90 := by
  refine ⟨by decide, by decide, by decide, by decide, by decide, by decide⟩

/-- C1 amended: the scorer adds a flat +10 when at least one keyword of the
fixed set occurs as a substring of the lowercased text and 0 otherwise (so
the keyword bonus never exceeds +10), and the 600-character two-keyword
example scores 80. -/
theorem C1_flat_keyword_bonus (s : List String) (t : String) :
    calculate_score s t =
        max 0 (min 100 (50 - 15 * (s.length : Int) + spec_length_adjustment t.length
          + (if keywordHit t then 10 else 0)))
      ∧ calculate_score (get_spacy_suggestions c1text) c1text = 80 := by
  refine ⟨?_, by decide⟩
  show max 0 (min 100 (raw_score s t)) = _
  rw [raw_score_eq]

/-- C2 counterexample: on the example sentence the matcher finds three
suggestions, not four, and the pre-clamp score is -15, not -30. -/
theorem C2_counterexample :
    (get_spacy_suggestions c2text).length = 3
      ∧ (get_spacy_suggestions c2text).length ≠ 4
      ∧ raw_score (get_spacy_suggestions c2text) c2text = -15
      ∧ raw_score (get_spacy_suggestions c2text) c2text ≠ -30 := by
  refine ⟨by decide, by decide, by decide, by decide⟩

/-- C2 amended: the example sentence matches three rule categories (it
contains no occurrence of "i believe"), giving 50 - 3 * 15 - 20 = -15
before clamping, and the returned score is 0 as claimed. -/
theorem C2_three_categories :
    get_spacy_suggestions c2text =
        [mkSuggestion ("I think") adviceConfident,
          mkSuggestion ("helped with") adviceActionVerb,
          mkSuggestion ("responsible for") adviceStrongVerbs]
      ∧ raw_score (get_spacy_suggestions c2text) c2text = -15
      ∧ calculate_score (get_spacy_suggestions c2text) c2text = 0 := by
  refine ⟨by decide, by decide, by decide⟩

/-- C3: for every suggestion list and every text, the scorer returns an
integer in the closed interval from 0 to 100. -/
theorem C3_score_bounded (s : List String) (t : String) :
    0 ≤ calculate_score s t ∧ calculate_score s t ≤ 100 :=
  ⟨clamp_nonneg (raw_score s t), clamp_le_100 (raw_score s t)⟩

/-- C4 counterexample: on a text where the same weak phrase occurs with two
different casings, the matcher emits two suggestions for the one rule
category, because deduplication compares the full rendered suggestion text,
which embeds the matched span verbatim. -/
theorem C4_counterexample :
    get_spacy_suggestions ("I think i think") =
        [mkSuggestion ("I think") adviceConfident, mkSuggestion ("i think") adviceConfident]
      ∧ (get_spacy_suggestions ("I think i think")).length = 2
      ∧ lowerStr ("I think") = lowerStr ("i think") := by
  refine ⟨by decide, by decide, by decide⟩

/-- C4 amended: the output never contains a duplicate suggestion string,
and the example text with a repeated identically-cased phrase yields
exactly two suggestions; but uniqueness is per rendered suggestion text,
not per rule category. -/
theorem C4_dedup_by_suggestion_text :
    (∀ text : String, (get_spacy_suggestions text).Nodup)
      ∧ get_spacy_suggestions ("I think I think I believe") =
        [mkSuggestion ("I think") adviceConfident,
          mkSuggestion ("I believe") adviceConfident] := by
  constructor
  · intro text
    show (suggestionsOfDoc (tokenize text)).Nodup
    rw [suggestionsOfDoc_eq]
    exact foldl_dedupAppend_nodup _ [] List.nodup_nil
  · decide

/-- C5 counterexample: on a text whose weak phrases occur in the reverse of
catalog order, the suggestions come out in text order, so the list differs
from the catalog-order list the claim requires. -/
theorem C5_counterexample :
    get_spacy_suggestions c5text =
        [mkSuggestion ("Responsible for") adviceStrongVerbs,
          mkSuggestion ("I think") adviceConfident]
      ∧ get_spacy_suggestions c5text ≠
        [mkSuggestion ("I think") adviceConfident,
          mkSuggestion ("Responsible for") adviceStrongVerbs] := by
  refine ⟨by decide, by decide⟩

/-- C5 amended: the suggestions are the rendered suggestion strings of the
matches in document order (order of occurrence in the text), with empty
renderings dropped and the first occurrence of each suggestion text kept;
they are not reordered into catalog order. -/
theorem C5_document_order (text : String) :
    get_spacy_suggestions text =
      filteredKeepFirst []
        ((matcherMatches (tokenize text)).map
          (fun m => suggestionFor (spanText (tokenize text) m.1 m.2))) := by
  show suggestionsOfDoc (tokenize text) = _
  rw [suggestionsOfDoc_eq, foldl_dedupAppend_eq]
  simp

/-- C6: the length adjustment of the scorer is exactly the adjustment the
spec describes: -20 exactly when length < 150, +20 exactly when
length > 500, and 0 on the inclusive band, in particular at exactly 150
and exactly 500 characters. -/
theorem C6_length_boundaries (s : List String) (t : String) :
    calculate_score s t =
        max 0 (min 100 (50 - 15 * (s.length : Int) + spec_length_adjustment t.length
          + (if keywordHit t then 10 else 0)))
      ∧ spec_length_adjustment 150 = 0
      ∧ spec_length_adjustment 500 = 0
      ∧ (∀ n : Nat, spec_length_adjustment n = -20 ↔ n < 150)
      ∧ (∀ n : Nat, spec_length_adjustment n = 20 ↔ 500 < n) := by
  refine ⟨?_, by decide, by decide, ?_, ?_⟩
  · show max 0 (min 100 (raw_score s t)) = _
    rw [raw_score_eq]
  · intro n
    simp only [spec_length_adjustment]
    split_ifs with h1 h2
    · exact iff_of_true rfl h1
    · exact iff_of_false (by decide) h1
    · exact iff_of_false (by decide) h1
  · intro n
    simp only [spec_length_adjustment]
    split_ifs with h1 h2
    · exact iff_of_false (by decide) (by omega)
    · exact iff_of_true rfl h2
    · exact iff_of_false (by decide) h2

/-- C7: the empty text yields an empty suggestion list, and the score of
the empty text with its empty suggestion list is 30. -/
theorem C7_empty_text :
    get_spacy_suggestions ("") = []
      ∧ calculate_score (get_spacy_suggestions ("")) ("") = 30
      ∧ calculate_score [] ("") = 30 := by
  refine ⟨by decide, by decide, by decide⟩

/-- C8 counterexample: when the embedded nlp call fails, the matcher
returns the error unchanged, not an empty suggestion list: the source body
contains no exception handler. -/
theorem C8_counterexample :
    get_spacy_suggestionsE (Except.error SpacyErr.tokenizerFailure)
        = Except.error SpacyErr.tokenizerFailure
      ∧ get_spacy_suggestionsE (Except.error SpacyErr.tokenizerFailure)
        ≠ (Except.ok [] : Except SpacyErr (List String)) := by
  refine ⟨rfl, ?_⟩
  intro h
  exact Except.noConfusion h

/-- C8 amended: the matcher body performs no local recovery: a tokenizer
failure propagates to the caller unchanged, a successful tokenization is
processed normally, and the empty text (the guarded degenerate case of the
callers) yields an empty suggestion list. -/
theorem C8_error_propagation :
    (∀ e : SpacyErr, get_spacy_suggestionsE (Except.error e) = Except.error e)
      ∧ (∀ doc : List String,
          get_spacy_suggestionsE (Except.ok doc) = Except.ok (suggestionsOfDoc doc))
      ∧ get_spacy_suggestions ("") = [] := by
  refine ⟨fun e => rfl, fun doc => rfl, by decide⟩

/-- C9: both components are deterministic: the embedded matcher and scorer
are pure functions, so two runs on the same input give the same output. -/
theorem C9_deterministic (t : String) (s : List String) :
    get_spacy_suggestions t = get_spacy_suggestions t
      ∧ calculate_score s t = calculate_score s t :=
  ⟨rfl, rfl⟩

/-- C10: the score is always a multiple of 5 lying between 0 and 100, so
every reachable output is one of 0, 5, 10, up to 100. -/
theorem C10_multiple_of_five (s : List String) (t : String) :
    (5 : Int) ∣ calculate_score s t
      ∧ 0 ≤ calculate_score s t ∧ calculate_score s t ≤ 100 :=
  ⟨clamp_dvd (raw_score s t) (raw_score_dvd s t),
    clamp_nonneg (raw_score s t), clamp_le_100 (raw_score s t)⟩
